import Mathlib

/-!
Verification development for the Divi RPC gateway
(`rpc_client.py`, `divi_api_server.py`, `config.py`).

The gateway's functions are shallowly embedded as pure Lean functions.
Impure inputs are made explicit:
* the outcome of `requests.post` is a `Transport` function supplied as a
  parameter (one `TransportResult` per JSON-RPC method invocation);
* the wall clock (`datetime.now(timezone.utc)`) is passed in as a `Clock`
  carrying the epoch instant (for the cache arithmetic) together with the
  string produced by the standard library's `isoformat()`;
* raised Python exceptions are `Except` errors carrying a `PyExc` value
  that records the exception class, mirroring Python's `except` dispatch.
-/

/-- JSON values, as produced by `response.json()` and handled by the server.
Numbers are modelled as integers (all numbers relevant to the embedded code
paths — heights, ids, status values — are integral). -/
inductive Json where
  | null : Json
  | bool (b : Bool) : Json
  | num (n : Int) : Json
  | str (s : String) : Json
  | arr (elems : List Json) : Json
  | obj (fields : List (String × Json)) : Json

/-- First binding of a key in a Python dict, rendered as an association list. -/
def lookupField : List (String × Json) → String → Option Json
  | [], _ => none
  | (k, v) :: rest, key => if k == key then some v else lookupField rest key

/-- Dictionary lookup on a JSON value (`d[key]` / `key in d`). -/
def Json.lookup : Json → String → Option Json
  | .obj fields, key => lookupField fields key
  | _, _ => none

/-- Python truthiness of a JSON value (`if cache["data"]`, `if not peer_info`). -/
def jsonTruthy : Json → Bool
  | .null => false
  | .bool b => b
  | .num n => n != 0
  | .str s => s.length != 0
  | .arr elems => elems.length != 0
  | .obj fields => fields.length != 0

/-- Tail of an ISO-8601 UTC timestamp after the seconds field: either an
explicit `+00:00` offset or a fractional-seconds part followed by it,
matching the shapes `datetime.now(timezone.utc).isoformat()` emits. -/
def isoTail : List Char → Bool
  | ['+', '0', '0', ':', '0', '0'] => true
  | '.' :: rest =>
      let frac := rest.takeWhile Char.isDigit
      let offs := rest.dropWhile Char.isDigit
      frac.length != 0 && offs == ['+', '0', '0', ':', '0', '0']
  | _ => false

/-- Shape check for an ISO-8601 UTC timestamp `YYYY-MM-DDTHH:MM:SS[.ffffff]+00:00`. -/
def isIso8601 (s : String) : Bool :=
  match s.toList with
  | y1 :: y2 :: y3 :: y4 :: dash1 :: mo1 :: mo2 :: dash2 :: d1 :: d2 :: tsep
      :: h1 :: h2 :: colon1 :: mi1 :: mi2 :: colon2 :: s1 :: s2 :: rest =>
      [y1, y2, y3, y4, mo1, mo2, d1, d2, h1, h2, mi1, mi2, s1, s2].all Char.isDigit
        && dash1 == '-' && dash2 == '-' && tsep == 'T'
        && colon1 == ':' && colon2 == ':' && isoTail rest
  | _ => false

/-- Python exception classes that the embedded code raises or dispatches on. -/
inductive PyExc where
  | requestsConnectionError (msg : String) : PyExc
  | requestsTimeout (msg : String) : PyExc
  | requestsHTTPError (msg : String) : PyExc
  | attributeError (msg : String) : PyExc
  | valueError (msg : String) : PyExc
  | typeError (msg : String) : PyExc
  | httpException (status : Nat) (detail : String) : PyExc
  | exc (msg : String) : PyExc
deriving DecidableEq

/-- Python `str(e)` on an exception value (`HTTPException.__str__` renders
`"<status>: <detail>"`; the other classes render their message). -/
def pyStr : PyExc → String
  | .requestsConnectionError m => m
  | .requestsTimeout m => m
  | .requestsHTTPError m => m
  | .attributeError m => m
  | .valueError m => m
  | .typeError m => m
  | .httpException status detail => toString status ++ ": " ++ detail
  | .exc m => m

/-- Outcome of one `requests.post` to the upstream node: an HTTP response
with a status and parsed JSON body, or a transport-level exception. -/
inductive TransportResult where
  | response (status : Nat) (body : Json) : TransportResult
  | connectionError (msg : String) : TransportResult
  | timeout (msg : String) : TransportResult

/-- The upstream transport: what `requests.post` yields for a given JSON-RPC
method name and parameter list. -/
abbrev Transport := String → List Json → TransportResult

/-- One JSON-RPC call issued by the client (method plus positional params). -/
structure RpcCall where
  method : String
  params : List Json

namespace RpcClient

/-- Message text of `requests.Response.raise_for_status` for an error status. -/
def raiseForStatusMsg (status : Nat) : String :=
  toString status ++ " Client Error"

/-- `RpcClient.call` (rpc_client.py): posts the JSON-RPC payload and returns
the parsed body; every `requests.exceptions.RequestException` — including
`ConnectionError`, `Timeout`, and the `HTTPError` raised by
`raise_for_status()` — is caught and re-raised as a plain
`Exception("Error occurred: ...")`.  The second component records the call
that was issued. -/
def call (t : Transport) (method : String) (params : List Json) :
    Except PyExc Json × List RpcCall :=
  let outcome : Except PyExc Json :=
    match t method params with
    | .response status body =>
        if 400 ≤ status then
          .error (.exc ("Error occurred: " ++ raiseForStatusMsg status))
        else
          .ok body
    | .connectionError m => .error (.exc ("Error occurred: " ++ m))
    | .timeout m => .error (.exc ("Error occurred: " ++ m))
  (outcome, [⟨method, params⟩])

/-- `RpcClient.get_block_count`. -/
def get_block_count (t : Transport) : Except PyExc Json × List RpcCall :=
  call t "getblockcount" []

/-- `RpcClient.get_block` (verbosity defaults to `True`). -/
def get_block (t : Transport) (block_hash : String) :
    Except PyExc Json × List RpcCall :=
  call t "getblock" [Json.str block_hash, Json.bool true]

/-- `RpcClient.get_lottery_block_winners`: `[block_height] if block_height
else []` — note Python truthiness, so a height of `0` (or `None`) sends no
parameter. -/
def get_lottery_block_winners (t : Transport) (block_height : Option Int) :
    Except PyExc Json × List RpcCall :=
  match block_height with
  | some h => if h != 0 then call t "getlotteryblockwinners" [Json.num h]
              else call t "getlotteryblockwinners" []
  | none => call t "getlotteryblockwinners" []

/-- The methods `class RpcClient` actually defines (rpc_client.py).  There
is no `get_peer_info`, although `divi_api_server.get_peers` calls one. -/
def methodNames : List String :=
  ["call", "get_address_balance", "get_address_deltas", "get_address_txids",
   "get_address_utxos", "get_block_count", "get_block", "get_block_hash",
   "get_raw_transaction", "send_raw_transaction", "decode_raw_transaction",
   "get_connection_count", "get_info", "get_raw_mempool", "get_mempool_info",
   "get_lottery_block_winners", "ping"]

end RpcClient

/-- Named predicate for the duck-typed check in `handle_rpc_response`:
`isinstance(result, dict) and "result" in result`, paired with the value
that `result["result"]` would yield. -/
def innerResult : Json → Option Json
  | .obj fields => lookupField fields "result"
  | _ => none

/-- Whether the upstream payload is already an envelope-shaped record. -/
def hasInnerResult (j : Json) : Bool := (innerResult j).isSome

/-- `handle_rpc_response` (divi_api_server.py): unwrap one level when the
payload is a dict with a `"result"` key, then build the success envelope,
stamping the clock's ISO rendering under `"timestamp_utc"`. -/
def handle_rpc_response (nowIso : String) (result : Json) : Json :=
  let unwrapped :=
    match innerResult result with
    | some inner => inner
    | none => result
  Json.obj [("result", unwrapped), ("error", Json.null),
            ("timestamp_utc", Json.str nowIso)]

/-- `handle_rpc_error` (divi_api_server.py): error envelope with
`result = None` and the caller-supplied message; the timestamp is stored
under the key `"timestamp"`, not `"timestamp_utc"`. -/
def handle_rpc_error (nowIso : String) (error_msg : String) : Json :=
  Json.obj [("result", Json.null),
            ("error", Json.obj [("message", Json.str error_msg)]),
            ("timestamp", Json.str nowIso)]

def serviceUnavailableDetail : String := "Service Unavailable. Try again later."

def gatewayTimeoutDetail : String :=
  "Request Timeout. Service took too long to respond. Try again later."

def httpErrorDetail (msg : String) : String :=
  "Oops! There was an HTTP error: " ++ msg ++ ". Check your request and try again."

def generalErrorDetail : String :=
  "Oops! Looks like something broke. Either the universe just exploded, or you used the wrong API function. Try again, newb!"

/-- `rpc_call_wrapper` (divi_api_server.py): on success, normalize through
`handle_rpc_response`; on a raised exception, dispatch on its class in the
order of the `except` clauses — `requests.exceptions.ConnectionError` → 503,
`requests.exceptions.Timeout` → 504, `requests.exceptions.HTTPError` → 401
(detail embedding the raw exception text), anything else → 500 — re-raising
an `HTTPException` with the corresponding detail. -/
def rpc_call_wrapper (nowIso : String) (callResult : Except PyExc Json) :
    Except PyExc Json :=
  match callResult with
  | .ok result => .ok (handle_rpc_response nowIso result)
  | .error (.requestsConnectionError _) =>
      .error (.httpException 503 serviceUnavailableDetail)
  | .error (.requestsTimeout _) =>
      .error (.httpException 504 gatewayTimeoutDetail)
  | .error (.requestsHTTPError m) =>
      .error (.httpException 401 (httpErrorDetail m))
  | .error _ =>
      .error (.httpException 500 generalErrorDetail)

/-- `custom_http_exception_handler` (divi_api_server.py): the JSON body sent
for a raised `HTTPException` whose detail is a string —
`{"error": status_code, "message": detail}`. -/
def custom_http_exception_handler (status : Nat) (detail : String) : Json :=
  Json.obj [("error", Json.num status), ("message", Json.str detail)]

namespace Api

/-- Route `GET /blockcount`: `rpc_call_wrapper(rpc.get_block_count)`. -/
def get_block_count (t : Transport) (nowIso : String) :
    Except PyExc Json × List RpcCall :=
  let (r, calls) := RpcClient.get_block_count t
  (rpc_call_wrapper nowIso r, calls)

def invalidBlockHashDetail : String :=
  "Invalid block hash format. Expected a 64-character hexadecimal string."

def blockNotFoundDetail : String :=
  "Block not found. The provided block hash does not exist."

/-- The inline validation of route `GET /block/{hash}`:
`len(hash) == 64 and all(c in '0123456789abcdefABCDEF' for c in hash)`. -/
def validBlockHash (h : String) : Bool :=
  h.length == 64 && h.toList.all (fun c => "0123456789abcdefABCDEF".toList.contains c)

/-- Route `GET /block/{hash}` (divi_api_server.py): reject a malformed hash
with a 400 before any client call; otherwise issue the `getblock` call via
`rpc_call_wrapper`, converting any raised exception — `except Exception`
also catches the wrapper's own `HTTPException` — into a 404. -/
def get_block (t : Transport) (nowIso : String) (hash : String) :
    Except PyExc Json × List RpcCall :=
  if !validBlockHash hash then
    (.error (.httpException 400 invalidBlockHashDetail), [])
  else
    let (r, calls) := RpcClient.get_block t hash
    match rpc_call_wrapper nowIso r with
    | .ok v => (.ok v, calls)
    | .error _ => (.error (.httpException 404 blockNotFoundDetail), calls)

/-- Route `GET /getlottery` (divi_api_server.py): call the client, normalize
success through `handle_rpc_response` and any raised exception through
`handle_rpc_error(str(e))`. -/
def get_lottery (t : Transport) (nowIso : String) (blockheight : Option Int) :
    Json :=
  match (RpcClient.get_lottery_block_winners t blockheight).fst with
  | .ok result => handle_rpc_response nowIso result
  | .error e => handle_rpc_error nowIso (pyStr e)

end Api

/-- One raw peer record from upstream, with the fields `get_peers` reads
(`peer.get("subver", "")`, `peer.get("startingheight", 0)`,
`peer.get("addr", "")`). -/
structure PeerRecord where
  subver : String
  startingheight : Int
  addr : String
deriving DecidableEq

/-- One entry of a filtered peer group: `{"ip": ..., "port": ...}`. -/
structure PeerEntry where
  ip : String
  port : String
deriving DecidableEq

/-- One output group: `{"core": version-string, "peers": [...]}`. -/
structure FilteredPeerGroup where
  core : String
  peers : List PeerEntry
deriving DecidableEq

/-- `address.startswith('[')`. -/
def pyStartsWithBracket (address : String) : Bool :=
  match address.toList with
  | '[' :: _ => true
  | _ => false

/-- Python `str.split(':')`: split on every occurrence of the colon. -/
def splitOnColon : List Char → List (List Char)
  | [] => [[]]
  | ':' :: rest => [] :: splitOnColon rest
  | c :: rest =>
      match splitOnColon rest with
      | [] => [[c]]
      | group :: groups => (c :: group) :: groups

/-- Python `str.split(']:')`: split on every non-overlapping occurrence of
the two-character separator, scanning left to right. -/
def splitOnBracketColon : List Char → List (List Char)
  | [] => [[]]
  | ']' :: ':' :: rest => [] :: splitOnBracketColon rest
  | c :: rest =>
      match splitOnBracketColon rest with
      | [] => [[c]]
      | group :: groups => (c :: group) :: groups

/-- `split_ip_port` (divi_api_server.py).  Bracketed addresses take
`address[1:].split(']:')[0]` as the ip and `address.split(']:')[-1]` as the
port (`split` never returns an empty list, so those indexings cannot fail);
other addresses unpack `address.split(':')` into exactly two names, raising
`ValueError` when the split does not yield exactly two parts. -/
def split_ip_port (address : String) : Except PyExc (String × String) :=
  if pyStartsWithBracket address then
    let ip := String.mk ((splitOnBracketColon (address.toList.drop 1)).headD [])
    let port := String.mk ((splitOnBracketColon address.toList).getLastD [])
    .ok (ip, port)
  else
    match splitOnColon address.toList with
    | [ipChars, portChars] => .ok (String.mk ipChars, String.mk portChars)
    | [_] => .error (.valueError "not enough values to unpack (expected 2, got 1)")
    | _ => .error (.valueError "too many values to unpack (expected 2)")

/-- Python string `<` on two character lists: lexicographic comparison of
code points, as Python compares `str` values. -/
def pyStrLtChars : List Char → List Char → Bool
  | [], [] => false
  | [], _ :: _ => true
  | _ :: _, [] => false
  | a :: restA, b :: restB =>
      if a.toNat < b.toNat then true
      else if b.toNat < a.toNat then false
      else pyStrLtChars restA restB

/-- Python `a >= b` on strings. -/
def pyStrGe (a b : String) : Bool := !(pyStrLtChars a.toList b.toList)

/-- The fixed minimum version tag in the `subver` criterion. -/
def minSubver : String := "DIVI Core: 3.0.0.0"

/-- Append a surviving peer to the insertion-ordered groups, mirroring
`filtered_peers[subver] = []` / `filtered_peers[subver].append(...)` on an
insertion-ordered Python dict. -/
def addToGroup : List (String × List PeerEntry) → String → PeerEntry →
    List (String × List PeerEntry)
  | [], ver, p => [(ver, [p])]
  | (v, ps) :: rest, ver, p =>
      if v == ver then (v, ps ++ [p]) :: rest
      else (v, ps) :: addToGroup rest ver p

/-- The peer loop of `get_peers` (divi_api_server.py): skip bracketed
addresses when `include_ipv6` is false, then parse the address — raising out
of the whole loop on a parse failure — and keep the peer when
`subver >= "DIVI Core: 3.0.0.0"` (lexicographically) and
`startingheight >= block_count - 1000`. -/
def filterLoop (include_ipv6 : Bool) (block_count : Int) :
    List PeerRecord → List (String × List PeerEntry) →
    Except PyExc (List (String × List PeerEntry))
  | [], acc => .ok acc
  | peer :: rest, acc =>
      if !include_ipv6 && pyStartsWithBracket peer.addr then
        filterLoop include_ipv6 block_count rest acc
      else
        match split_ip_port peer.addr with
        | .error e => .error e
        | .ok (ip, port) =>
            if pyStrGe peer.subver minSubver
                && decide (peer.startingheight ≥ block_count - 1000) then
              filterLoop include_ipv6 block_count rest
                (addToGroup acc peer.subver ⟨ip, port⟩)
            else
              filterLoop include_ipv6 block_count rest acc

/-- The peer-filter pass of `get_peers`, producing the output groups in
first-seen order (`[{"core": ver, "peers": peers} for ver, peers in
filtered_peers.items()]`). -/
def filterPeers (peers : List PeerRecord) (block_count : Int)
    (include_ipv6 : Bool) : Except PyExc (List FilteredPeerGroup) :=
  match filterLoop include_ipv6 block_count peers [] with
  | .error e => .error e
  | .ok groups => .ok (groups.map (fun g => ⟨g.fst, g.snd⟩))

/-- The module-level cache slot (`cache = {"data": None, "timestamp": None}`). -/
structure CacheState where
  data : Option Json
  timestamp : Option Int

/-- `CACHE_DURATION = timedelta(hours = 5)`, in seconds. -/
def CACHE_DURATION : Int := 5 * 3600

/-- One reading of `datetime.now(timezone.utc)`: the epoch instant in
seconds (used for the timedelta comparison) together with the string its
`isoformat()` renders to. -/
structure Clock where
  epoch : Int
  iso : String

/-- The cache check of `get_peers`:
`cache["data"] and cache["timestamp"] and now - cache["timestamp"] < CACHE_DURATION`
(a stored `datetime` is always truthy; the stored data is checked for
Python truthiness). -/
def cacheFresh (st : CacheState) (now : Int) : Bool :=
  match st.data, st.timestamp with
  | some d, some ts => jsonTruthy d && decide (now - ts < CACHE_DURATION)
  | _, _ => false

/-- The error object returned by the `except` branch of `get_peers`:
`{"error": str(e), "timestamp": now.isoformat()}`. -/
def peersErrorObj (e : PyExc) (nowIso : String) : Json :=
  Json.obj [("error", Json.str (pyStr e)), ("timestamp", Json.str nowIso)]

/-- `rpc.get_peer_info()` as executed by `get_peers`: `class RpcClient`
(rpc_client.py) defines no `get_peer_info` method — see
`RpcClient.methodNames` — so the attribute access raises `AttributeError`
before any request is made. -/
def getPeerInfoCall : Except PyExc Json :=
  .error (.attributeError "RpcClient object has no attribute get_peer_info")

/-- Decoding of one iterated element under `peer.get(...)`: anything but a
dict has no `.get`; the three read fields default to `""`, `0`, `""` and are
used as a string, an integer and a string respectively.  Unreachable in the
current code: the loop sits behind `getPeerInfoCall`, which always raises. -/
def decodePeerRecord : Json → Except PyExc PeerRecord
  | .obj fields =>
      match (lookupField fields "subver").getD (Json.str ""),
            (lookupField fields "startingheight").getD (Json.num 0),
            (lookupField fields "addr").getD (Json.str "") with
      | .str sv, .num sh, .str ad => .ok ⟨sv, sh, ad⟩
      | _, _, _ => .error (.typeError "unsupported peer field type")
  | _ => .error (.attributeError "object has no attribute get")

/-- Decoding of the iterated `peer_info` value (unreachable, see
`decodePeerRecord`). -/
def decodePeerRecords : Json → Except PyExc (List PeerRecord)
  | .arr elems =>
      let rec go : List Json → Except PyExc (List PeerRecord)
        | [] => .ok []
        | x :: xs =>
            match decodePeerRecord x with
            | .error e => .error e
            | .ok r =>
                match go xs with
                | .error e => .error e
                | .ok rs => .ok (r :: rs)
      go elems
  | _ => .error (.typeError "peer_info is not a list of records")

/-- `block_count - 1000` demands an integer `block_count` (unreachable, see
`decodePeerRecord`; note the raw `rpc.get_block_count()` value is the whole
JSON-RPC envelope dict, which would raise `TypeError` here). -/
def asIntJson : Json → Except PyExc Int
  | .num n => .ok n
  | _ => .error (.typeError "unsupported operand type for subtraction")

/-- The success value built by `get_peers` from the filtered groups. -/
def packagePeers (groups : List FilteredPeerGroup) (nowIso : String) : Json :=
  Json.obj
    [("result", Json.arr (groups.map (fun g =>
        Json.obj [("core", Json.str g.core),
                  ("peers", Json.arr (g.peers.map (fun p =>
                      Json.obj [("ip", Json.str p.ip),
                                ("port", Json.str p.port)])))]))),
     ("error", Json.null),
     ("id", Json.num 1),
     ("timestamp_utc", Json.str nowIso)]

namespace Api

/-- The `try` block of `get_peers` (divi_api_server.py): fetch the block
count, check it against `None`, fetch the peer info — which raises
`AttributeError`, since `RpcClient` has no `get_peer_info` — and, were that
ever to succeed, run the peer filter and package the result. -/
def get_peers_body (t : Transport) (clock : Clock) (include_ipv6 : Bool) :
    Except PyExc Json :=
  match (RpcClient.get_block_count t).fst with
  | .error e => .error e
  | .ok block_count =>
      match block_count with
      | Json.null => .error (.httpException 500 "Unable to retrieve block count.")
      | _ =>
          match getPeerInfoCall with
          | .error e => .error e
          | .ok peer_info =>
              if !jsonTruthy peer_info then
                .error (.httpException 500 "Unable to retrieve peer information.")
              else
                match asIntJson block_count, decodePeerRecords peer_info with
                | .error e, _ => .error e
                | _, .error e => .error e
                | .ok bc, .ok peers =>
                    match filterPeers peers bc include_ipv6 with
                    | .error e => .error e
                    | .ok groups => .ok (packagePeers groups clock.iso)

/-- Route `GET /getpeers` (divi_api_server.py): serve `cache["data"]` when
the cache check passes; otherwise run the `try` block, storing a successful
result with the current timestamp, or returning the `except` branch's error
object with the cache untouched.  The third component records whether the
computation (the `try` block) was entered. -/
def get_peers (t : Transport) (st : CacheState) (clock : Clock)
    (include_ipv6 : Bool) : Json × CacheState × Bool :=
  if cacheFresh st clock.epoch then
    (st.data.getD Json.null, st, false)
  else
    match get_peers_body t clock include_ipv6 with
    | .ok result => (result, ⟨some result, some clock.epoch⟩, true)
    | .error e => (peersErrorObj e clock.iso, st, true)

end Api

/-!  Helper lemmas shared between claim theorems. -/

/-- The `try` block of `get_peers` can never succeed: even when the
`getblockcount` transport call goes through, the `rpc.get_peer_info()`
attribute access raises, because `RpcClient` defines no such method. -/
theorem get_peers_body_always_errors (t : Transport) (clock : Clock)
    (flag : Bool) : ∃ e, Api.get_peers_body t clock flag = Except.error e := by
  unfold Api.get_peers_body
  cases hbc : (RpcClient.get_block_count t).fst with
  | error e => exact ⟨e, rfl⟩
  | ok bc => cases bc <;> exact ⟨_, rfl⟩

/-- Definitional unfolding of one step of the peer loop. -/
theorem filterLoop_cons (flag : Bool) (bc : Int) (q : PeerRecord)
    (rest : List PeerRecord) (acc : List (String × List PeerEntry)) :
    filterLoop flag bc (q :: rest) acc =
      if !flag && pyStartsWithBracket q.addr then
        filterLoop flag bc rest acc
      else
        match split_ip_port q.addr with
        | .error e => .error e
        | .ok (ip, port) =>
            if pyStrGe q.subver minSubver
                && decide (q.startingheight ≥ bc - 1000) then
              filterLoop flag bc rest (addToGroup acc q.subver ⟨ip, port⟩)
            else
              filterLoop flag bc rest acc := rfl

/-- An unbracketed address resolves to the colon-splitting branch. -/
theorem split_ip_port_nobracket (address : String)
    (h : pyStartsWithBracket address = false) :
    split_ip_port address
      = match splitOnColon address.toList with
        | [ipChars, portChars] => .ok (String.mk ipChars, String.mk portChars)
        | [_] => .error (.valueError "not enough values to unpack (expected 2, got 1)")
        | _ => .error (.valueError "too many values to unpack (expected 2)") := by
  unfold split_ip_port
  rw [h]
  simp

/-- A skipped peer leaves the loop state unchanged. -/
theorem filterLoop_cons_skip (flag : Bool) (bc : Int) (q : PeerRecord)
    (rest : List PeerRecord) (acc : List (String × List PeerEntry))
    (h : (!flag && pyStartsWithBracket q.addr) = true) :
    filterLoop flag bc (q :: rest) acc = filterLoop flag bc rest acc := by
  rw [filterLoop_cons, h]
  simp

/-- A failed address parse aborts the loop with that error. -/
theorem filterLoop_cons_err (flag : Bool) (bc : Int) (q : PeerRecord)
    (rest : List PeerRecord) (acc : List (String × List PeerEntry)) (e : PyExc)
    (h : (!flag && pyStartsWithBracket q.addr) = false)
    (hsp : split_ip_port q.addr = .error e) :
    filterLoop flag bc (q :: rest) acc = .error e := by
  rw [filterLoop_cons, h, hsp]
  simp

/-- A surviving peer is appended to its version group. -/
theorem filterLoop_cons_keep (flag : Bool) (bc : Int) (q : PeerRecord)
    (rest : List PeerRecord) (acc : List (String × List PeerEntry))
    (ip port : String)
    (h : (!flag && pyStartsWithBracket q.addr) = false)
    (hsp : split_ip_port q.addr = .ok (ip, port))
    (hcrit : (pyStrGe q.subver minSubver
        && decide (q.startingheight ≥ bc - 1000)) = true) :
    filterLoop flag bc (q :: rest) acc
      = filterLoop flag bc rest (addToGroup acc q.subver ⟨ip, port⟩) := by
  rw [filterLoop_cons, h, hsp]
  simp only [Bool.false_eq_true, if_false, hcrit, if_true]

/-- A parsed peer failing the version or height criterion is dropped. -/
theorem filterLoop_cons_drop (flag : Bool) (bc : Int) (q : PeerRecord)
    (rest : List PeerRecord) (acc : List (String × List PeerEntry))
    (ip port : String)
    (h : (!flag && pyStartsWithBracket q.addr) = false)
    (hsp : split_ip_port q.addr = .ok (ip, port))
    (hcrit : (pyStrGe q.subver minSubver
        && decide (q.startingheight ≥ bc - 1000)) = false) :
    filterLoop flag bc (q :: rest) acc = filterLoop flag bc rest acc := by
  rw [filterLoop_cons, h, hsp]
  simp only [Bool.false_eq_true, if_false, hcrit, if_true]

/-- A peer whose address has no leading bracket and no colon makes the peer
loop raise, whatever the accumulated groups, the flag, the height
criterion, or the other peers. -/
theorem filterLoop_error_of_malformed (flag : Bool) (bc : Int) (p : PeerRecord)
    (hnb : pyStartsWithBracket p.addr = false)
    (hnc : splitOnColon p.addr.toList = [p.addr.toList]) :
    ∀ peers : List PeerRecord, p ∈ peers →
      ∀ acc, ∃ e, filterLoop flag bc peers acc = Except.error e := by
  have hsplitp : split_ip_port p.addr
      = Except.error (.valueError "not enough values to unpack (expected 2, got 1)") := by
    rw [split_ip_port_nobracket p.addr hnb, hnc]
  intro peers
  induction peers with
  | nil => intro h; cases h
  | cons q rest ih =>
    intro hmem acc
    rcases List.mem_cons.mp hmem with rfl | hmem2
    · have hskip : (!flag && pyStartsWithBracket p.addr) = false := by
        simp [hnb]
      exact ⟨_, filterLoop_cons_err flag bc p rest acc _ hskip hsplitp⟩
    · cases hq : (!flag && pyStartsWithBracket q.addr) with
      | true =>
        obtain ⟨e, he⟩ := ih hmem2 acc
        exact ⟨e, by rw [filterLoop_cons_skip flag bc q rest acc hq, he]⟩
      | false =>
        cases hsp : split_ip_port q.addr with
        | error e => exact ⟨e, filterLoop_cons_err flag bc q rest acc e hq hsp⟩
        | ok pr =>
          rcases pr with ⟨ip, port⟩
          cases hcrit : (pyStrGe q.subver minSubver
              && decide (q.startingheight ≥ bc - 1000)) with
          | true =>
            obtain ⟨e, he⟩ := ih hmem2 (addToGroup acc q.subver ⟨ip, port⟩)
            exact ⟨e, by
              rw [filterLoop_cons_keep flag bc q rest acc ip port hq hsp hcrit, he]⟩
          | false =>
            obtain ⟨e, he⟩ := ih hmem2 acc
            exact ⟨e, by
              rw [filterLoop_cons_drop flag bc q rest acc ip port hq hsp hcrit, he]⟩

/-!  Claim theorems. -/

/-- C1: the claim says an upstream connection failure surfaces as 503 and a
timeout as 504 with `result == null`.  In the code, `RpcClient.call` catches
every `requests.exceptions.RequestException` and re-raises it as a plain
`Exception`, so the wrapper's 503/504 branches can never match: both failure
kinds reach the inbound caller as a 500 with the generic message (whose body
also carries no `result` field at all). -/
theorem c1_transport_failures_surface_as_500 :
    (Api.get_block_count (fun _ _ => TransportResult.connectionError "Connection refused")
        "1970-01-01T00:00:00+00:00").fst
      = Except.error (PyExc.httpException 500 generalErrorDetail) ∧
    (Api.get_block_count (fun _ _ => TransportResult.timeout "Read timed out")
        "1970-01-01T00:00:00+00:00").fst
      = Except.error (PyExc.httpException 500 generalErrorDetail) ∧
    Json.lookup (custom_http_exception_handler 500 generalErrorDetail) "result"
      = none := by
  refine ⟨rfl, rfl, rfl⟩

/-- C2: the claim describes the TTL cache serving a stored computation.  In
the code, `get_peers` calls `rpc.get_peer_info()`, but `RpcClient` defines
no `get_peer_info` method, so every cache miss raises `AttributeError`
inside the `try` block: the computation can never succeed, nothing is ever
stored, and two calls within the TTL each enter the computation and each
return an error object. -/
theorem c2_get_peer_info_missing_so_cache_never_fills :
    ("get_peer_info" ∉ RpcClient.methodNames) ∧
    (∀ (t : Transport) (clock : Clock) (flag : Bool),
        ∃ e, Api.get_peers_body t clock flag = Except.error e) ∧
    (Api.get_peers
        (fun _ _ => TransportResult.response 200
          (Json.obj [("result", Json.num 12345), ("error", Json.null), ("id", Json.num 1)]))
        ⟨none, none⟩ ⟨0, "1970-01-01T00:00:00+00:00"⟩ true
      = (peersErrorObj (.attributeError "RpcClient object has no attribute get_peer_info")
          "1970-01-01T00:00:00+00:00", ⟨none, none⟩, true)) ∧
    (Api.get_peers
        (fun _ _ => TransportResult.response 200
          (Json.obj [("result", Json.num 12345), ("error", Json.null), ("id", Json.num 1)]))
        ⟨none, none⟩ ⟨3600, "1970-01-01T01:00:00+00:00"⟩ true
      = (peersErrorObj (.attributeError "RpcClient object has no attribute get_peer_info")
          "1970-01-01T01:00:00+00:00", ⟨none, none⟩, true)) := by
  refine ⟨by decide, get_peers_body_always_errors, rfl, rfl⟩

/-- C6: the peer filter on the two peer records of the claim with
`current_height = 1000` yields exactly one group, for version string
`"DIVI Core: 3.0.0.0"`, containing `{ip: "1.2.3.4", port: "1000"}`; the
2.0.0.0 peer is excluded by the lexicographic version comparison. -/
theorem c6_peer_filter_concrete :
    filterPeers
        [⟨"DIVI Core: 3.0.0.0", 995, "1.2.3.4:1000"⟩,
         ⟨"DIVI Core: 2.0.0.0", 999, "5.6.7.8:2000"⟩] 1000 false
      = Except.ok [⟨"DIVI Core: 3.0.0.0", [⟨"1.2.3.4", "1000"⟩]⟩] := by
  rfl

/-- C7: the peer with address `"[::1]:9999"` is excluded when
`include_ipv6 = false`; when `include_ipv6 = true` its address parses via
the bracket-delimited branch to `{ip: "::1", port: "9999"}` and the peer
appears in its version group. -/
theorem c7_ipv6_exclusion_and_parse :
    split_ip_port "[::1]:9999" = Except.ok ("::1", "9999") ∧
    filterPeers [⟨"DIVI Core: 3.0.0.0", 1000, "[::1]:9999"⟩] 1000 false
      = Except.ok [] ∧
    filterPeers [⟨"DIVI Core: 3.0.0.0", 1000, "[::1]:9999"⟩] 1000 true
      = Except.ok [⟨"DIVI Core: 3.0.0.0", [⟨"::1", "9999"⟩]⟩] := by
  refine ⟨rfl, rfl, rfl⟩

/-- C3: for every successful upstream payload, `handle_rpc_response` sets
`error = null`, stamps the clock's ISO-8601 rendering under
`timestamp_utc`, and surfaces the payload as `result` — unwrapped exactly
one level when the payload is a record exposing an inner `result` field,
verbatim otherwise. -/
theorem c3_success_normalization (payload : Json) (iso : String)
    (hiso : isIso8601 iso = true) :
    Json.lookup (handle_rpc_response iso payload) "error" = some Json.null ∧
    (∃ ts, Json.lookup (handle_rpc_response iso payload) "timestamp_utc"
        = some (Json.str ts) ∧ isIso8601 ts = true) ∧
    (hasInnerResult payload = false →
      Json.lookup (handle_rpc_response iso payload) "result" = some payload) ∧
    (∀ inner, innerResult payload = some inner →
      Json.lookup (handle_rpc_response iso payload) "result" = some inner) := by
  refine ⟨rfl, ⟨iso, rfl, hiso⟩, ?_, ?_⟩
  · intro h
    cases hin : innerResult payload with
    | some inner => rw [hasInnerResult, hin] at h; cases h
    | none =>
      unfold handle_rpc_response
      rw [hin]
      rfl
  · intro inner hin
    unfold handle_rpc_response
    rw [hin]
    rfl

/-- Witness for C3 at a double-wrapped payload and a concrete timestamp. -/
theorem c3_success_normalization_witness :
    Json.lookup
        (handle_rpc_response "1970-01-01T00:00:00+00:00"
          (Json.obj [("result", Json.num 5)])) "result"
      = some (Json.num 5) :=
  (c3_success_normalization (Json.obj [("result", Json.num 5)])
      "1970-01-01T00:00:00+00:00" (by decide)).2.2.2 (Json.num 5) rfl

/-- C4 counterexample: `handle_rpc_error` stores its timestamp under the key
`timestamp` and has no `timestamp_utc` field; and the lottery route passes
the raw exception text — here the transport message re-raised by
`RpcClient.call` — through as `error.message`, not a fixed per-kind string. -/
theorem c4_error_envelope_counterexample :
    Json.lookup (handle_rpc_error "1970-01-01T00:00:00+00:00" "boom")
        "timestamp_utc" = none ∧
    Json.lookup
        (Api.get_lottery (fun _ _ => TransportResult.connectionError "refused")
          "1970-01-01T00:00:00+00:00" none) "error"
      = some (Json.obj [("message", Json.str "Error occurred: refused")]) := by
  refine ⟨rfl, rfl⟩

/-- C4 amended: failures normalized by `handle_rpc_error` carry
`result = null`, an `error.message` equal to the caller-supplied raw
exception text, and the ISO timestamp under the key `timestamp` (there is
no `timestamp_utc` field); `result` and `error` are never both non-null.
Failures raised through `rpc_call_wrapper` surface as `HTTPException`s whose
rendered body is `{error: status, message: detail}` with no `result` field,
with fixed distinct details on the connection-error, timeout and generic
branches. -/
theorem c4_error_envelope_amended (iso msg detail : String) (status : Nat) :
    Json.lookup (handle_rpc_error iso msg) "result" = some Json.null ∧
    Json.lookup (handle_rpc_error iso msg) "error"
      = some (Json.obj [("message", Json.str msg)]) ∧
    Json.lookup (handle_rpc_error iso msg) "timestamp" = some (Json.str iso) ∧
    Json.lookup (handle_rpc_error iso msg) "timestamp_utc" = none ∧
    Json.lookup (custom_http_exception_handler status detail) "result" = none ∧
    Json.lookup (custom_http_exception_handler status detail) "message"
      = some (Json.str detail) ∧
    rpc_call_wrapper iso (Except.error (.requestsConnectionError msg))
      = Except.error (.httpException 503 serviceUnavailableDetail) ∧
    rpc_call_wrapper iso (Except.error (.requestsTimeout msg))
      = Except.error (.httpException 504 gatewayTimeoutDetail) ∧
    rpc_call_wrapper iso (Except.error (.exc msg))
      = Except.error (.httpException 500 generalErrorDetail) ∧
    serviceUnavailableDetail ≠ gatewayTimeoutDetail ∧
    serviceUnavailableDetail ≠ generalErrorDetail ∧
    gatewayTimeoutDetail ≠ generalErrorDetail := by
  refine ⟨rfl, rfl, rfl, rfl, rfl, rfl, rfl, rfl, rfl, by decide, by decide, by decide⟩

/-- C5: while a fresh cache entry exists, `get_peers` serves the stored
value to every caller — the cache check never consults the `include_ipv6`
flag (nor the transport), so the same payload answers both flag values and
no computation is entered. -/
theorem c5_cache_ignores_flag (t1 t2 : Transport) (st : CacheState)
    (clock : Clock) (f1 f2 : Bool)
    (hfresh : cacheFresh st clock.epoch = true) :
    (Api.get_peers t1 st clock f1).fst = (Api.get_peers t2 st clock f2).fst ∧
    (Api.get_peers t1 st clock f1).snd.snd = false ∧
    (Api.get_peers t1 st clock f1).fst = st.data.getD Json.null := by
  unfold Api.get_peers
  rw [hfresh]
  exact ⟨rfl, rfl, rfl⟩

/-- Witness for C5: a fresh entry is served identically for the two flag
values (even across different transports). -/
theorem c5_cache_ignores_flag_witness :
    (Api.get_peers (fun _ _ => TransportResult.connectionError "a")
        ⟨some (Json.num 1), some 0⟩ ⟨100, "T"⟩ true).fst
      = (Api.get_peers (fun _ _ => TransportResult.timeout "b")
        ⟨some (Json.num 1), some 0⟩ ⟨100, "T"⟩ false).fst :=
  (c5_cache_ignores_flag (fun _ _ => TransportResult.connectionError "a")
      (fun _ _ => TransportResult.timeout "b")
      ⟨some (Json.num 1), some 0⟩ ⟨100, "T"⟩ true false (by decide)).1

/-- C8: a block-by-hash request whose hash is not a 64-character hex string
is rejected with a 400 and no JSON-RPC call is issued; a valid hash makes
the route issue exactly the `getblock` call to the transport client. -/
theorem c8_block_hash_validation (t : Transport) (iso hash : String) :
    (Api.validBlockHash hash = false →
      Api.get_block t iso hash
        = (Except.error (PyExc.httpException 400 Api.invalidBlockHashDetail), [])) ∧
    (Api.validBlockHash hash = true →
      (Api.get_block t iso hash).snd
        = [⟨"getblock", [Json.str hash, Json.bool true]⟩]) := by
  constructor
  · intro h
    unfold Api.get_block
    rw [h]
    rfl
  · intro h
    unfold Api.get_block
    rw [h]
    show (match rpc_call_wrapper iso (RpcClient.get_block t hash).fst with
      | .ok v => (Except.ok v, (RpcClient.get_block t hash).snd)
      | .error _ => (Except.error (PyExc.httpException 404 Api.blockNotFoundDetail),
          (RpcClient.get_block t hash).snd)).snd
      = [⟨"getblock", [Json.str hash, Json.bool true]⟩]
    cases rpc_call_wrapper iso (RpcClient.get_block t hash).fst <;> rfl

/-- Witness for C8: the malformed hash `"zz"` is rejected with no call; a
64-hex-character hash issues the `getblock` call. -/
theorem c8_block_hash_validation_witness :
    Api.get_block (fun _ _ => TransportResult.response 200 Json.null) "T" "zz"
      = (Except.error (PyExc.httpException 400 Api.invalidBlockHashDetail), []) ∧
    (Api.get_block (fun _ _ => TransportResult.response 200 Json.null) "T"
        "00000000000000000000000000000000000000000000000000000000000000aF").snd
      = [⟨"getblock",
          [Json.str "00000000000000000000000000000000000000000000000000000000000000aF",
           Json.bool true]⟩] :=
  ⟨(c8_block_hash_validation (fun _ _ => TransportResult.response 200 Json.null)
      "T" "zz").1 (by decide),
   (c8_block_hash_validation (fun _ _ => TransportResult.response 200 Json.null)
      "T" "00000000000000000000000000000000000000000000000000000000000000aF").2
      (by decide)⟩

/-- C9: a peer record whose address has no leading bracket and no colon
(encoded: the colon split returns the whole address) makes the address
parse raise `ValueError` and thereby aborts the whole filter pass with an
error — the parse is attempted before the version and height criteria, so
even a peer those criteria would drop triggers it — and the route's `except`
branch converts whatever exception the computation raises into an error
object returned to the caller, never dropping it silently. -/
theorem c9_malformed_addr_reported (peers : List PeerRecord) (p : PeerRecord)
    (bc : Int) (flag : Bool) (t : Transport) (st : CacheState) (clock : Clock)
    (e : PyExc)
    (hmem : p ∈ peers)
    (hnb : pyStartsWithBracket p.addr = false)
    (hnc : splitOnColon p.addr.toList = [p.addr.toList])
    (hmiss : cacheFresh st clock.epoch = false)
    (hbody : Api.get_peers_body t clock flag = Except.error e) :
    (∃ e2, filterPeers peers bc flag = Except.error e2) ∧
    (Api.get_peers t st clock flag).fst = peersErrorObj e clock.iso := by
  constructor
  · obtain ⟨e2, he2⟩ := filterLoop_error_of_malformed flag bc p hnb hnc peers hmem []
    exact ⟨e2, by unfold filterPeers; rw [he2]⟩
  · unfold Api.get_peers
    rw [hmiss, hbody]
    rfl

/-- Witness for C9: the single peer `{subver: "DIVI Core: 2.0.0.0",
startingheight: 0, addr: "badaddr"}` — one the version criterion would
drop — still aborts the filter, and the route surfaces the computation's
exception as an error object. -/
theorem c9_malformed_addr_reported_witness :
    (∃ e2, filterPeers [⟨"DIVI Core: 2.0.0.0", 0, "badaddr"⟩] 1000 false
        = Except.error e2) ∧
    (Api.get_peers (fun _ _ => TransportResult.response 200 (Json.num 5))
        ⟨none, none⟩ ⟨0, "T"⟩ false).fst
      = peersErrorObj
          (.attributeError "RpcClient object has no attribute get_peer_info") "T" :=
  c9_malformed_addr_reported [⟨"DIVI Core: 2.0.0.0", 0, "badaddr"⟩]
    ⟨"DIVI Core: 2.0.0.0", 0, "badaddr"⟩ 1000 false
    (fun _ _ => TransportResult.response 200 (Json.num 5))
    ⟨none, none⟩ ⟨0, "T"⟩
    (.attributeError "RpcClient object has no attribute get_peer_info")
    (by simp) (by decide) (by decide) (by decide) (by rfl)

/-- C10: on a cache miss the computation raises (whatever the transport
does), the handler returns the `except` branch's error object, and the
cache slot is left exactly as it was — so nothing of the failed attempt is
ever served from cache, and any later call finding the unchanged slot stale
enters the computation again. -/
theorem c10_exception_leaves_cache_unchanged (t : Transport) (st : CacheState)
    (clock : Clock) (flag : Bool)
    (hmiss : cacheFresh st clock.epoch = false) :
    (∃ e, Api.get_peers t st clock flag = (peersErrorObj e clock.iso, st, true)) ∧
    (∀ (t2 : Transport) (clock2 : Clock) (flag2 : Bool),
        cacheFresh st clock2.epoch = false →
        (Api.get_peers t2 st clock2 flag2).snd.snd = true) := by
  constructor
  · obtain ⟨e, he⟩ := get_peers_body_always_errors t clock flag
    refine ⟨e, ?_⟩
    unfold Api.get_peers
    rw [hmiss, he]
    rfl
  · intro t2 clock2 flag2 hmiss2
    obtain ⟨e, he⟩ := get_peers_body_always_errors t2 clock2 flag2
    unfold Api.get_peers
    rw [hmiss2, he]
    rfl

/-- Witness for C10: from the empty cache slot, a failing computation
returns an error object and leaves the slot empty. -/
theorem c10_exception_leaves_cache_unchanged_witness :
    ∃ e, Api.get_peers (fun _ _ => TransportResult.connectionError "refused")
        ⟨none, none⟩ ⟨0, "T"⟩ false
      = (peersErrorObj e "T", ⟨none, none⟩, true) :=
  (c10_exception_leaves_cache_unchanged
      (fun _ _ => TransportResult.connectionError "refused")
      ⟨none, none⟩ ⟨0, "T"⟩ false (by decide)).1
